import Mathlib

/-!
Verification of the GTFS-Realtime .pb parser's entity-flattening core.

The development shallowly embeds the extraction logic of
`src/gtfs_parser.py` (CLI path) and `src/webapp/app.py` (web path).
Protobuf messages are modelled as Lean structures in which every
optional field is an `Option`; accessing an absent field in the Python
protobuf runtime yields the field's wire default (0 for integers,
"" for strings, the default sub-message for messages), which the
embedding renders with `Option.getD`.  Numeric wire values
(timestamps, times, latitude, longitude, bearing, speed) are carried
as integers here: the extractors only copy and print them, never
compute with them, so the carrier type is irrelevant to the
properties below.  File I/O, printing and the pandas/Flask export
layers are outside the extracted core, per the design's scope.
-/

/-- A cell value as stored in a record dictionary by the Python code:
either a string or a number copied straight from the feed. -/
inductive Value where
  | s (v : String)
  | i (v : Int)
deriving DecidableEq

/-- A flat record: the Python dict literal returned by a `process_*`
function, as an ordered association list from column name to value. -/
abbrev FlatRecord := List (String × Value)

/-- TripDescriptor message: `trip_id`, `route_id`,
`schedule_relationship` (enum, optional). -/
structure TripDescriptor where
  trip_id : Option String
  route_id : Option String
  schedule_relationship : Option Nat
deriving DecidableEq

/-- StopTimeEvent message: optional `time` (epoch seconds, int64). -/
structure StopTimeEvent where
  time : Option Int
deriving DecidableEq

/-- StopTimeUpdate message: optional `stop_id`, optional `arrival`
and `departure` events. -/
structure StopTimeUpdate where
  stop_id : Option String
  arrival : Option StopTimeEvent
  departure : Option StopTimeEvent
deriving DecidableEq

/-- TripUpdate message: `trip` descriptor (accessed without a
presence check by the code, so an absent descriptor behaves as the
all-absent default and is modelled as a plain field), repeated
`stop_time_update`, optional `timestamp`. -/
structure TripUpdate where
  trip : TripDescriptor
  stop_time_update : List StopTimeUpdate
  timestamp : Option Nat
deriving DecidableEq

/-- VehicleDescriptor message: optional `id` and `label`. -/
structure VehicleDescriptor where
  id : Option String
  label : Option String
deriving DecidableEq

/-- Position message: `latitude` and `longitude` are required fields
of the wire schema, so a present position always carries both;
`bearing` and `speed` are optional. -/
structure Position where
  latitude : Int
  longitude : Int
  bearing : Option Int
  speed : Option Int
deriving DecidableEq

/-- VehiclePosition message, with the optional sub-messages the code
checks via HasField: `trip`, `vehicle`, `position`, plus optional
`stop_id`, `current_status` enum and `timestamp`. -/
structure VehiclePosition where
  trip : Option TripDescriptor
  vehicle : Option VehicleDescriptor
  position : Option Position
  stop_id : Option String
  current_status : Option Nat
  timestamp : Option Nat
deriving DecidableEq

/-- TimeRange / ActivePeriod message: optional `start` and `end`
bounds (uint64, wire default 0). -/
structure ActivePeriod where
  start : Option Nat
  «end» : Option Nat
deriving DecidableEq

/-- EntitySelector / InformedEntity message: the three sub-fields the
code inspects, each independently optional. -/
structure InformedEntity where
  route_id : Option String
  stop_id : Option String
  agency_id : Option String
deriving DecidableEq

/-- One (language, text) pair of a TranslatedText; both fields are
read without presence checks, so they are plain strings defaulting
to "". -/
structure Translation where
  language : String
  text : String
deriving DecidableEq

/-- TranslatedText message: an ordered list of translations. An
absent TranslatedText behaves as the empty list under the code's
check-free access. -/
structure TranslatedText where
  translation : List Translation
deriving DecidableEq

/-- Alert message: repeated `active_period` and `informed_entity`,
`cause` and `effect` enums (wire defaults UNKNOWN_CAUSE = 1 and
UNKNOWN_EFFECT = 8 when absent), header and description texts. -/
structure Alert where
  active_period : List ActivePeriod
  informed_entity : List InformedEntity
  cause : Option Nat
  effect : Option Nat
  header_text : TranslatedText
  description_text : TranslatedText
deriving DecidableEq

/-- FeedEntity message: an id plus the three payload fields the
dispatch loop checks with HasField, in the code's order of checks. -/
structure FeedEntity where
  id : String
  trip_update : Option TripUpdate
  vehicle : Option VehiclePosition
  alert : Option Alert
deriving DecidableEq

/-- FeedHeader message: `version` and optional `timestamp`. -/
structure FeedHeader where
  version : String
  timestamp : Option Nat
deriving DecidableEq

/-- FeedMessage: header plus repeated entity. -/
structure FeedMessage where
  header : FeedHeader
  entity : List FeedEntity
deriving DecidableEq

/-- Enum name table for TripDescriptor.ScheduleRelationship, per the
wire schema (the Python code calls the generated `Name` resolver).
Unknown values, on which the generated resolver would raise, are
mapped to "" and never arise in the properties below. -/
def scheduleRelationshipName : Nat → String
  | 0 => "SCHEDULED"
  | 1 => "ADDED"
  | 2 => "UNSCHEDULED"
  | 3 => "CANCELED"
  | 5 => "REPLACEMENT"
  | 6 => "DUPLICATED"
  | 7 => "DELETED"
  | _ => ""

/-- Enum name table for VehiclePosition.VehicleStopStatus. -/
def vehicleStopStatusName : Nat → String
  | 0 => "INCOMING_AT"
  | 1 => "STOPPED_AT"
  | 2 => "IN_TRANSIT_TO"
  | _ => ""

/-- Enum name table for Alert.Cause. -/
def causeName : Nat → String
  | 1 => "UNKNOWN_CAUSE"
  | 2 => "OTHER_CAUSE"
  | 3 => "TECHNICAL_PROBLEM"
  | 4 => "STRIKE"
  | 5 => "DEMONSTRATION"
  | 6 => "ACCIDENT"
  | 7 => "HOLIDAY"
  | 8 => "WEATHER"
  | 9 => "MAINTENANCE"
  | 10 => "CONSTRUCTION"
  | 11 => "POLICE_ACTIVITY"
  | 12 => "MEDICAL_EMERGENCY"
  | _ => ""

/-- Enum name table for Alert.Effect. -/
def effectName : Nat → String
  | 1 => "NO_SERVICE"
  | 2 => "REDUCED_SERVICE"
  | 3 => "SIGNIFICANT_DELAYS"
  | 4 => "DETOUR"
  | 5 => "ADDITIONAL_SERVICE"
  | 6 => "MODIFIED_SERVICE"
  | 7 => "OTHER_EFFECT"
  | 8 => "UNKNOWN_EFFECT"
  | 9 => "STOP_MOVED"
  | _ => ""

/-- Rendering of an optional integer exactly as the Python
conditional expressions produce it: the decimal string of the value
when present, the empty string otherwise (the f-strings then embed
this rendering verbatim). -/
def renderOptInt : Option Int → String
  | some n => toString n
  | none => ""

/-- Embeds one stop-time-update line of `process_trip_update`:
stop_id, arrival time and departure time each fall back to "" when
absent, rendered as stop:arrival-departure. -/
def render_stop_update (su : StopTimeUpdate) : String :=
  (su.stop_id.getD "") ++ ":"
    ++ renderOptInt (su.arrival.bind StopTimeEvent.time) ++ "-"
    ++ renderOptInt (su.departure.bind StopTimeEvent.time)

/-- Embeds `process_trip_update` of src/gtfs_parser.py: the dict
literal it returns, for entity id `eid` carrying trip update `tu`. -/
def process_trip_update (eid : String) (tu : TripUpdate) : FlatRecord :=
  [("Entity ID", Value.s eid),
   ("Type", Value.s "trip_update"),
   ("Trip ID", Value.s (tu.trip.trip_id.getD "")),
   ("Route ID", Value.s (tu.trip.route_id.getD "")),
   ("Schedule Relationship", Value.s
     (match tu.trip.schedule_relationship with
      | some v => scheduleRelationshipName v
      | none => "SCHEDULED")),
   ("Stop Updates", Value.s
     (String.intercalate "; " (tu.stop_time_update.map render_stop_update))),
   ("Timestamp",
     match tu.timestamp with
     | some t => Value.i (Int.ofNat t)
     | none => Value.s "")]

/-- Embeds `process_vehicle_position` of src/gtfs_parser.py. -/
def process_vehicle_position (eid : String) (v : VehiclePosition) : FlatRecord :=
  [("Entity ID", Value.s eid),
   ("Type", Value.s "vehicle_position"),
   ("Trip ID", Value.s ((v.trip.bind TripDescriptor.trip_id).getD "")),
   ("Route ID", Value.s ((v.trip.bind TripDescriptor.route_id).getD "")),
   ("Vehicle ID", Value.s ((v.vehicle.bind VehicleDescriptor.id).getD "")),
   ("Vehicle Label", Value.s ((v.vehicle.bind VehicleDescriptor.label).getD "")),
   ("Latitude",
     match v.position with
     | some p => Value.i p.latitude
     | none => Value.s ""),
   ("Longitude",
     match v.position with
     | some p => Value.i p.longitude
     | none => Value.s ""),
   ("Bearing",
     match v.position.bind Position.bearing with
     | some b => Value.i b
     | none => Value.s ""),
   ("Speed",
     match v.position.bind Position.speed with
     | some sp => Value.i sp
     | none => Value.s ""),
   ("Current Stop", Value.s (v.stop_id.getD "")),
   ("Current Status", Value.s
     (match v.current_status with
      | some c => vehicleStopStatusName c
      | none => "")),
   ("Timestamp",
     match v.timestamp with
     | some t => Value.i (Int.ofNat t)
     | none => Value.s "")]

/-- Embeds the active-period rendering of `process_alert`: the code
reads `ap.start` and `ap.end` without a presence check, so an absent
bound surfaces as the wire default 0 inside the f-string. -/
def render_active_period (ap : ActivePeriod) : String :=
  toString (ap.start.getD 0) ++ "-" ++ toString (ap.«end».getD 0)

/-- Embeds the per-entity informed-entity rendering of
`process_alert`: only present sub-fields contribute key=value parts,
joined by a bar separator; an entity with no present sub-field
renders as "". -/
def render_informed_entity (ie : InformedEntity) : String :=
  String.intercalate " | "
    ((match ie.route_id with
      | some r => ["route_id=" ++ r]
      | none => []) ++
     (match ie.stop_id with
      | some st => ["stop_id=" ++ st]
      | none => []) ++
     (match ie.agency_id with
      | some ag => ["agency_id=" ++ ag]
      | none => []))

/-- Embeds the translation-selection loop of `process_alert`: scan
for a translation with language "he" and non-empty text, returning
its text, or "" when the scan exhausts the list. -/
def scan_he : List Translation → String
  | [] => ""
  | t :: rest =>
    if t.language == "he" && t.text != "" then t.text else scan_he rest

/-- Embeds the full header/description text selection of
`process_alert`: the Hebrew scan, then — exactly when the scan left
the accumulator empty — the first translation's text when the list
is non-empty. -/
def select_translation (ts : List Translation) : String :=
  let r := scan_he ts
  if r == "" then
    match ts with
    | [] => ""
    | t :: _ => t.text
  else r

/-- Embeds `process_alert` of src/gtfs_parser.py. -/
def process_alert (eid : String) (a : Alert) : FlatRecord :=
  [("Entity ID", Value.s eid),
   ("Type", Value.s "alert"),
   ("Active Periods", Value.s
     (if a.active_period.isEmpty then ""
      else String.intercalate "; " (a.active_period.map render_active_period))),
   ("Informed Entities", Value.s
     (String.intercalate "; " (a.informed_entity.map render_informed_entity))),
   ("Cause", Value.s (causeName (a.cause.getD 1))),
   ("Effect", Value.s (effectName (a.effect.getD 8))),
   ("Header Text", Value.s (select_translation a.header_text.translation)),
   ("Description Text", Value.s (select_translation a.description_text.translation))]

/-- Embeds `process_trip_update` of src/webapp/app.py: identical to
the CLI copy except that the dict has no "Type" entry. -/
def webapp_process_trip_update (eid : String) (tu : TripUpdate) : FlatRecord :=
  [("Entity ID", Value.s eid),
   ("Trip ID", Value.s (tu.trip.trip_id.getD "")),
   ("Route ID", Value.s (tu.trip.route_id.getD "")),
   ("Schedule Relationship", Value.s
     (match tu.trip.schedule_relationship with
      | some v => scheduleRelationshipName v
      | none => "SCHEDULED")),
   ("Stop Updates", Value.s
     (String.intercalate "; " (tu.stop_time_update.map render_stop_update))),
   ("Timestamp",
     match tu.timestamp with
     | some t => Value.i (Int.ofNat t)
     | none => Value.s "")]

/-- Embeds `process_vehicle_position` of src/webapp/app.py: identical
to the CLI copy except that the dict has no "Type" entry. -/
def webapp_process_vehicle_position (eid : String) (v : VehiclePosition) : FlatRecord :=
  [("Entity ID", Value.s eid),
   ("Trip ID", Value.s ((v.trip.bind TripDescriptor.trip_id).getD "")),
   ("Route ID", Value.s ((v.trip.bind TripDescriptor.route_id).getD "")),
   ("Vehicle ID", Value.s ((v.vehicle.bind VehicleDescriptor.id).getD "")),
   ("Vehicle Label", Value.s ((v.vehicle.bind VehicleDescriptor.label).getD "")),
   ("Latitude",
     match v.position with
     | some p => Value.i p.latitude
     | none => Value.s ""),
   ("Longitude",
     match v.position with
     | some p => Value.i p.longitude
     | none => Value.s ""),
   ("Bearing",
     match v.position.bind Position.bearing with
     | some b => Value.i b
     | none => Value.s ""),
   ("Speed",
     match v.position.bind Position.speed with
     | some sp => Value.i sp
     | none => Value.s ""),
   ("Current Stop", Value.s (v.stop_id.getD "")),
   ("Current Status", Value.s
     (match v.current_status with
      | some c => vehicleStopStatusName c
      | none => "")),
   ("Timestamp",
     match v.timestamp with
     | some t => Value.i (Int.ofNat t)
     | none => Value.s "")]

/-- Embeds `process_alert` of src/webapp/app.py: identical to the
CLI copy except that the dict has no "Type" entry. -/
def webapp_process_alert (eid : String) (a : Alert) : FlatRecord :=
  [("Entity ID", Value.s eid),
   ("Active Periods", Value.s
     (if a.active_period.isEmpty then ""
      else String.intercalate "; " (a.active_period.map render_active_period))),
   ("Informed Entities", Value.s
     (String.intercalate "; " (a.informed_entity.map render_informed_entity))),
   ("Cause", Value.s (causeName (a.cause.getD 1))),
   ("Effect", Value.s (effectName (a.effect.getD 8))),
   ("Header Text", Value.s (select_translation a.header_text.translation)),
   ("Description Text", Value.s (select_translation a.description_text.translation))]

/-- Embeds the dispatch of the entity loop in `parse_gtfs_realtime`:
HasField checks on trip_update, then vehicle, then alert; an entity
with none of the three yields no record.  The Python truthiness
checks on the returned dicts always pass, the dicts being non-empty
literals. -/
def processEntity (e : FeedEntity) : Option FlatRecord :=
  match e.trip_update with
  | some tu => some (process_trip_update e.id tu)
  | none =>
    match e.vehicle with
    | some v => some (process_vehicle_position e.id v)
    | none =>
      match e.alert with
      | some a => some (process_alert e.id a)
      | none => none

/-- The "Entity ID" column of a record, as the string the DataFrame
sort keys on; every record built by the extractors stores the entity
id there as a string. -/
def entityIDof (r : FlatRecord) : String :=
  match List.lookup "Entity ID" r with
  | some (Value.s s) => s
  | _ => ""

/-- Code-point lexicographic order on strings, the comparison Python
and numpy apply to str values when sorting the "Entity ID" column. -/
def charListLe : List Char → List Char → Bool
  | [], _ => true
  | _ :: _, [] => false
  | a :: as, b :: bs => if a < b then true else if b < a then false else charListLe as bs

/-- String comparison used by the sort on the "Entity ID" column. -/
def strLe (s t : String) : Bool := charListLe s.data t.data

/-- Record comparison for `df.sort_values("Entity ID")`. -/
def recordLe (r1 r2 : FlatRecord) : Prop := strLe (entityIDof r1) (entityIDof r2) = true

instance : DecidableRel recordLe :=
  fun r1 r2 => inferInstanceAs (Decidable (strLe (entityIDof r1) (entityIDof r2) = true))

/-- Embeds `parse_gtfs_realtime` of src/gtfs_parser.py restricted to
its pure core: classify each entity in feed order, collect the
records, sort ascending on the "Entity ID" column.  (The empty-data
branch returns an empty table, which coincides with sorting the
empty list; the pandas sort is realised here by an insertion sort —
on the key order the two agree, and ties cannot arise under the data
model's unique-identifier invariant, see the sorting theorem.) -/
def parse_gtfs_realtime (feed : FeedMessage) : List FlatRecord :=
  (feed.entity.filterMap processEntity).insertionSort recordLe

/-- Restatement of the translation-selection algorithm exactly as the
specification words it, for comparison with the embedded loop: the
text of the first entry whose language is "he" with non-empty text;
failing that, the first entry's text when the list is non-empty;
otherwise the empty string. -/
def select_translation_spec (ts : List Translation) : String :=
  match ts.find? (fun t => t.language == "he" && t.text != "") with
  | some t => t.text
  | none =>
    match ts with
    | [] => ""
    | t :: _ => t.text

theorem scan_he_eq_find (ts : List Translation) :
    scan_he ts =
      match ts.find? (fun t => t.language == "he" && t.text != "") with
      | some t => t.text
      | none => "" := by
  induction ts with
  | nil => rfl
  | cons t rest ih =>
    by_cases h : (t.language == "he" && t.text != "") = true
    · simp [scan_he, List.find?_cons, h]
    · simp only [scan_he, List.find?_cons]
      rw [if_neg (by simpa using h)]
      rw [Bool.of_not_eq_true h]
      exact ih

theorem select_translation_eq_spec (ts : List Translation) :
    select_translation ts = select_translation_spec ts := by
  unfold select_translation select_translation_spec
  cases hf : ts.find? (fun t => t.language == "he" && t.text != "") with
  | some t =>
    have htext := List.find?_some hf
    have : t.text ≠ "" := by
      simp only [Bool.and_eq_true] at htext
      simpa using htext.2
    simp only [scan_he_eq_find, hf]
    rw [if_neg (by simpa using this)]
  | none =>
    simp only [scan_he_eq_find, hf]
    rfl

/-- Claim C1: for every alert entity, the HeaderText and DescriptionText
columns each carry the text of the first translation whose language
is "he" and whose text is non-empty; when no such entry exists, the
first entry's text when the list is non-empty; otherwise "".
(`select_translation_spec` is that exact selection rule, and
`List.find?` returns the first list entry satisfying the scan's
predicate.) -/
theorem C1_translation_selection (eid : String) (a : Alert) :
    List.lookup "Header Text" (process_alert eid a)
      = some (Value.s (select_translation_spec a.header_text.translation))
    ∧ List.lookup "Description Text" (process_alert eid a)
      = some (Value.s (select_translation_spec a.description_text.translation)) := by
  have hh : List.lookup "Header Text" (process_alert eid a)
      = some (Value.s (select_translation a.header_text.translation)) := rfl
  have hd : List.lookup "Description Text" (process_alert eid a)
      = some (Value.s (select_translation a.description_text.translation)) := rfl
  rw [hh, hd, select_translation_eq_spec, select_translation_eq_spec]
  exact ⟨rfl, rfl⟩

/-- An alert whose single active period has no start bound. -/
def c2_alert : Alert :=
  { active_period := [{ start := none, «end» := some 200 }],
    informed_entity := [], cause := none, effect := none,
    header_text := ⟨[]⟩, description_text := ⟨[]⟩ }

/-- An alert with no active periods at all. -/
def c2_empty_alert : Alert :=
  { active_period := [], informed_entity := [], cause := none, effect := none,
    header_text := ⟨[]⟩, description_text := ⟨[]⟩ }

/-- Claim C2 counterexample: an active period with a missing start bound is
rendered "0-200", not "-200" — the code reads the bound without a
presence check, so the wire default 0 is printed, contradicting the
claim that a missing bound renders as the empty string. -/
theorem C2_counterexample :
    List.lookup "Active Periods" (process_alert "a1" c2_alert) = some (Value.s "0-200")
    ∧ Value.s "0-200" ≠ Value.s "-200" := by
  exact ⟨rfl, by decide⟩

/-- Claim C2 amended: each active period renders as start-end where a
missing bound is rendered as the wire-default 0 (not as the empty
string); the rendered periods are joined with "; ", and the empty
active-period list yields the empty string. -/
theorem C2_active_periods (eid : String) (a : Alert) :
    List.lookup "Active Periods" (process_alert eid a)
      = some (Value.s (String.intercalate "; " (a.active_period.map
          (fun ap => toString (ap.start.getD 0) ++ "-" ++ toString (ap.«end».getD 0)))))
    ∧ (a.active_period = [] →
        List.lookup "Active Periods" (process_alert eid a) = some (Value.s "")) := by
  have hbase : List.lookup "Active Periods" (process_alert eid a)
      = some (Value.s (if a.active_period.isEmpty then ""
          else String.intercalate "; " (a.active_period.map render_active_period))) := rfl
  constructor
  · rw [hbase]
    cases h : a.active_period with
    | nil => rfl
    | cons ap rest => rfl
  · intro h
    rw [hbase, h]
    rfl

/-- Claim C2 amended, witnessed at the empty active-period list. -/
theorem C2_active_periods_witness :
    List.lookup "Active Periods" (process_alert "a0" c2_empty_alert) = some (Value.s "") :=
  (C2_active_periods "a0" c2_empty_alert).2 rfl

/-- A trip update with no schedule-relationship field. -/
def c4_tu_none : TripUpdate :=
  { trip := { trip_id := none, route_id := none, schedule_relationship := none },
    stop_time_update := [], timestamp := none }

/-- A trip update whose schedule relationship is ADDED (= 1). -/
def c4_tu_added : TripUpdate :=
  { trip := { trip_id := none, route_id := none, schedule_relationship := some 1 },
    stop_time_update := [], timestamp := none }

/-- Claim C4: the ScheduleRelationship column carries the resolved enum
name when the field is present, and the literal "SCHEDULED" — not
the empty string — when it is absent. -/
theorem C4_schedule_relationship_default (eid : String) (tu : TripUpdate) :
    (tu.trip.schedule_relationship = none →
      List.lookup "Schedule Relationship" (process_trip_update eid tu)
        = some (Value.s "SCHEDULED"))
    ∧ (∀ v, tu.trip.schedule_relationship = some v →
      List.lookup "Schedule Relationship" (process_trip_update eid tu)
        = some (Value.s (scheduleRelationshipName v)))
    ∧ Value.s "SCHEDULED" ≠ Value.s "" := by
  have hbase : List.lookup "Schedule Relationship" (process_trip_update eid tu)
      = some (Value.s (match tu.trip.schedule_relationship with
          | some v => scheduleRelationshipName v
          | none => "SCHEDULED")) := rfl
  refine ⟨?_, ?_, by decide⟩
  · intro h
    rw [hbase, h]
  · intro v h
    rw [hbase, h]

/-- Claim C4, witnessed at an absent and at a present schedule
relationship. -/
theorem C4_schedule_relationship_witness :
    List.lookup "Schedule Relationship" (process_trip_update "e" c4_tu_none)
      = some (Value.s "SCHEDULED")
    ∧ List.lookup "Schedule Relationship" (process_trip_update "e" c4_tu_added)
      = some (Value.s "ADDED") :=
  ⟨(C4_schedule_relationship_default "e" c4_tu_none).1 rfl,
   (C4_schedule_relationship_default "e" c4_tu_added).2.1 1 rfl⟩

/-- The scenario feed: header version "2.0" with timestamp
1700000000, and a single trip-update entity "tu1" for trip "T1",
no schedule relationship, one stop-time-update (stop "S1",
arrival 100, no departure), no update-level timestamp. -/
def c5_feed : FeedMessage :=
  { header := { version := "2.0", timestamp := some 1700000000 },
    entity :=
      [{ id := "tu1",
         trip_update := some
           { trip := { trip_id := some "T1", route_id := none,
                       schedule_relationship := none },
             stop_time_update :=
               [{ stop_id := some "S1", arrival := some ⟨some 100⟩,
                  departure := none }],
             timestamp := none },
         vehicle := none,
         alert := none }] }

/-- The record the code actually produces for the scenario feed:
the six claimed columns with their claimed values, plus the
additional "Type" column the CLI extractor always emits. -/
def c5_record : FlatRecord :=
  [("Entity ID", Value.s "tu1"),
   ("Type", Value.s "trip_update"),
   ("Trip ID", Value.s "T1"),
   ("Route ID", Value.s ""),
   ("Schedule Relationship", Value.s "SCHEDULED"),
   ("Stop Updates", Value.s "S1:100-"),
   ("Timestamp", Value.s "")]

/-- Claim C5 counterexample: the scenario's output record has seven
columns, not the claimed six — the CLI extractor also emits a "Type"
column, which is none of the claimed EntityID, TripID, RouteID,
ScheduleRelationship, StopUpdates, Timestamp (realised in the code
as "Entity ID", "Trip ID", "Route ID", "Schedule Relationship",
"Stop Updates", "Timestamp"). -/
theorem C5_scenario_counterexample :
    (parse_gtfs_realtime c5_feed).map (fun r => r.map Prod.fst)
      = [["Entity ID", "Type", "Trip ID", "Route ID", "Schedule Relationship",
          "Stop Updates", "Timestamp"]]
    ∧ "Type" ∉ ["Entity ID", "Trip ID", "Route ID", "Schedule Relationship",
          "Stop Updates", "Timestamp"] := by
  exact ⟨rfl, by decide⟩

/-- Claim C5 amended: the scenario feed yields exactly one record, whose
six claimed columns have exactly the claimed values — including
Timestamp empty despite the header timestamp — plus the additional
column Type = "trip_update" emitted by the CLI extractor. -/
theorem C5_scenario : parse_gtfs_realtime c5_feed = [c5_record] := rfl

/-- A vehicle position with no position block. -/
def c6_vehicle_nopos : VehiclePosition :=
  { trip := none, vehicle := none, position := none,
    stop_id := none, current_status := none, timestamp := none }

/-- A vehicle position with a position block carrying neither
bearing nor speed. -/
def c6_vehicle_pos : VehiclePosition :=
  { trip := none, vehicle := none,
    position := some { latitude := 32, longitude := 34, bearing := none, speed := none },
    stop_id := none, current_status := none, timestamp := none }

/-- Claim C6: Latitude and Longitude are populated together whenever a
position block is present (and are then never the empty string),
are the empty string exactly when no position block exists, while
Bearing and Speed are each empty whenever their own field is absent
even with a position present. -/
theorem C6_position_fields (eid : String) (v : VehiclePosition) :
    (v.position = none →
      List.lookup "Latitude" (process_vehicle_position eid v) = some (Value.s "")
      ∧ List.lookup "Longitude" (process_vehicle_position eid v) = some (Value.s ""))
    ∧ (∀ p, v.position = some p →
      List.lookup "Latitude" (process_vehicle_position eid v) = some (Value.i p.latitude)
      ∧ List.lookup "Longitude" (process_vehicle_position eid v) = some (Value.i p.longitude)
      ∧ List.lookup "Latitude" (process_vehicle_position eid v) ≠ some (Value.s "")
      ∧ List.lookup "Longitude" (process_vehicle_position eid v) ≠ some (Value.s "")
      ∧ (p.bearing = none →
          List.lookup "Bearing" (process_vehicle_position eid v) = some (Value.s ""))
      ∧ (p.speed = none →
          List.lookup "Speed" (process_vehicle_position eid v) = some (Value.s ""))) := by
  have hlat : List.lookup "Latitude" (process_vehicle_position eid v)
      = some (match v.position with
          | some p => Value.i p.latitude
          | none => Value.s "") := rfl
  have hlng : List.lookup "Longitude" (process_vehicle_position eid v)
      = some (match v.position with
          | some p => Value.i p.longitude
          | none => Value.s "") := rfl
  have hbrg : List.lookup "Bearing" (process_vehicle_position eid v)
      = some (match v.position.bind Position.bearing with
          | some b => Value.i b
          | none => Value.s "") := rfl
  have hspd : List.lookup "Speed" (process_vehicle_position eid v)
      = some (match v.position.bind Position.speed with
          | some sp => Value.i sp
          | none => Value.s "") := rfl
  constructor
  · intro h
    rw [hlat, hlng, h]
    exact ⟨rfl, rfl⟩
  · intro p h
    rw [hlat, hlng, hbrg, hspd, h]
    refine ⟨rfl, rfl, by simp, by simp, ?_, ?_⟩
    · intro hb
      rw [Option.some_bind, hb]
    · intro hs
      rw [Option.some_bind, hs]

/-- Claim C6, witnessed at a vehicle without a position block and at a
vehicle whose position block carries neither bearing nor speed. -/
theorem C6_position_fields_witness :
    List.lookup "Latitude" (process_vehicle_position "v0" c6_vehicle_nopos)
      = some (Value.s "")
    ∧ List.lookup "Latitude" (process_vehicle_position "v1" c6_vehicle_pos)
      = some (Value.i 32)
    ∧ List.lookup "Bearing" (process_vehicle_position "v1" c6_vehicle_pos)
      = some (Value.s "")
    ∧ List.lookup "Speed" (process_vehicle_position "v1" c6_vehicle_pos)
      = some (Value.s "") :=
  ⟨((C6_position_fields "v0" c6_vehicle_nopos).1 rfl).1,
   ((C6_position_fields "v1" c6_vehicle_pos).2 _ rfl).1,
   (((((C6_position_fields "v1" c6_vehicle_pos).2 _ rfl).2).2).2).2.1 rfl,
   (((((C6_position_fields "v1" c6_vehicle_pos).2 _ rfl).2).2).2).2.2 rfl⟩

theorem processEntity_eq_none (e : FeedEntity) (h1 : e.trip_update = none)
    (h2 : e.vehicle = none) (h3 : e.alert = none) : processEntity e = none := by
  unfold processEntity
  rw [h1, h2, h3]

theorem entityIDof_processEntity (e : FeedEntity) (r : FlatRecord)
    (h : processEntity e = some r) : entityIDof r = e.id := by
  unfold processEntity at h
  cases htu : e.trip_update with
  | some tu =>
    rw [htu] at h
    cases h
    rfl
  | none =>
    rw [htu] at h
    cases hv : e.vehicle with
    | some v =>
      rw [hv] at h
      cases h
      rfl
    | none =>
      rw [hv] at h
      cases ha : e.alert with
      | some a =>
        rw [ha] at h
        cases h
        rfl
      | none =>
        rw [ha] at h
        cases h

theorem records_ids_sublist (es : List FeedEntity) :
    ((es.filterMap processEntity).map entityIDof).Sublist (es.map FeedEntity.id) := by
  induction es with
  | nil => simp
  | cons e rest ih =>
    rw [List.filterMap_cons]
    cases h : processEntity e with
    | none =>
      simp only [List.map_cons]
      exact ih.cons e.id
    | some r =>
      simp only [List.map_cons]
      rw [entityIDof_processEntity e r h]
      exact ih.cons₂ e.id

/-- Claim C7: an entity with none of the three payload variants populated
is silently dropped: the parse of the feed equals the parse of the
feed with that entity removed (so every other entity is still
processed and no error arises, the embedding being total), and — as
long as no other entity carries the same identifier — no record in
the output carries that entity's identifier. -/
theorem C7_unrecognized_dropped (feed : FeedMessage) (pre post : List FeedEntity)
    (e : FeedEntity) (hsplit : feed.entity = pre ++ e :: post)
    (h1 : e.trip_update = none) (h2 : e.vehicle = none) (h3 : e.alert = none) :
    parse_gtfs_realtime feed = parse_gtfs_realtime ⟨feed.header, pre ++ post⟩
    ∧ (e.id ∉ (pre ++ post).map FeedEntity.id →
        ∀ r ∈ parse_gtfs_realtime feed, entityIDof r ≠ e.id) := by
  have hrec : feed.entity.filterMap processEntity
      = (pre ++ post).filterMap processEntity := by
    rw [hsplit, List.filterMap_append, List.filterMap_append, List.filterMap_cons,
      processEntity_eq_none e h1 h2 h3]
  constructor
  · unfold parse_gtfs_realtime
    rw [hrec]
  · intro hid r hr hcontra
    have hperm := List.perm_insertionSort recordLe (feed.entity.filterMap processEntity)
    have hrmem : r ∈ feed.entity.filterMap processEntity := hperm.mem_iff.mp hr
    rw [hrec] at hrmem
    have : entityIDof r ∈ ((pre ++ post).filterMap processEntity).map entityIDof :=
      List.mem_map_of_mem entityIDof hrmem
    have hsub := records_ids_sublist (pre ++ post)
    have : entityIDof r ∈ (pre ++ post).map FeedEntity.id := hsub.mem this
    rw [hcontra] at this
    exact hid this

/-- A feed consisting of one recognised alert entity and one entity
with no payload variant at all. -/
def c7_feed : FeedMessage :=
  { header := { version := "2.0", timestamp := none },
    entity :=
      [{ id := "a1", trip_update := none, vehicle := none,
         alert := some c2_empty_alert },
       { id := "x1", trip_update := none, vehicle := none, alert := none }] }

/-- Claim C7, witnessed on a two-entity feed: dropping the payload-less
entity leaves the parse unchanged, and no output record carries its
identifier. -/
theorem C7_unrecognized_dropped_witness :
    parse_gtfs_realtime c7_feed
      = parse_gtfs_realtime ⟨c7_feed.header, [c7_feed.entity.headD
          { id := "", trip_update := none, vehicle := none, alert := none }]⟩
    ∧ ∀ r ∈ parse_gtfs_realtime c7_feed, entityIDof r ≠ "x1" := by
  have h := C7_unrecognized_dropped c7_feed
    [{ id := "a1", trip_update := none, vehicle := none, alert := some c2_empty_alert }]
    []
    { id := "x1", trip_update := none, vehicle := none, alert := none }
    rfl rfl rfl rfl
  exact ⟨h.1, h.2 (by decide)⟩

/-- Claim C8: a feed with zero entities — and more generally a feed in
which no entity is classified — parses to the empty record sequence
(the embedding is a total function, so no error is possible). -/
theorem C8_empty_feed (feed : FeedMessage) :
    (feed.entity = [] → parse_gtfs_realtime feed = [])
    ∧ ((∀ e ∈ feed.entity, processEntity e = none) → parse_gtfs_realtime feed = []) := by
  constructor
  · intro h
    unfold parse_gtfs_realtime
    rw [h]
    rfl
  · intro h
    unfold parse_gtfs_realtime
    rw [List.filterMap_eq_nil_iff.mpr h]
    rfl

/-- Claim C8, witnessed at a concrete zero-entity feed. -/
theorem C8_empty_feed_witness :
    parse_gtfs_realtime { header := { version := "2.0", timestamp := none }, entity := [] }
      = [] :=
  (C8_empty_feed _).1 rfl

/-- Claim C9 counterexample: on a concrete trip-update entity the CLI-path
record and the web-path record are not equal and do not even have
the same column keys — the CLI copy emits a "Type" column the web
copy lacks. -/
theorem C9_counterexample :
    process_trip_update "e1" c4_tu_none ≠ webapp_process_trip_update "e1" c4_tu_none
    ∧ ("Type", Value.s "trip_update") ∈ process_trip_update "e1" c4_tu_none
    ∧ ("Type", Value.s "trip_update") ∉ webapp_process_trip_update "e1" c4_tu_none := by
  refine ⟨by decide, by decide, by decide⟩

/-- Claim C9 amended: for every entity of each of the three kinds, the
CLI-path extractor and the web-path extractor agree on every column
except the CLI-only "Type" column: removing "Type" from the CLI
record yields exactly the web record (same keys, same values, same
order). -/
theorem C9_extraction_equiv_modulo_type (eid : String) (tu : TripUpdate)
    (v : VehiclePosition) (a : Alert) :
    List.filter (fun kv => kv.1 != "Type") (process_trip_update eid tu)
      = webapp_process_trip_update eid tu
    ∧ List.filter (fun kv => kv.1 != "Type") (process_vehicle_position eid v)
      = webapp_process_vehicle_position eid v
    ∧ List.filter (fun kv => kv.1 != "Type") (process_alert eid a)
      = webapp_process_alert eid a :=
  ⟨rfl, rfl, rfl⟩

/-- An alert with two informed entities: only the first has any
populated sub-field. -/
def c10_alert : Alert :=
  { active_period := [],
    informed_entity :=
      [{ route_id := some "R1", stop_id := none, agency_id := none },
       { route_id := none, stop_id := none, agency_id := none }],
    cause := none, effect := none,
    header_text := ⟨[]⟩, description_text := ⟨[]⟩ }

/-- Claim C10: an informed entity with no populated sub-field renders as
the empty string yet still contributes a joined segment: the
InformedEntities column joins one rendered segment per informed
entity with "; ", so the two-entity example with only the first
populated yields "route_id=R1; " (with trailing separator), not
"route_id=R1". -/
theorem C10_empty_informed_entity_segment :
    (∀ ie : InformedEntity, ie.route_id = none → ie.stop_id = none →
      ie.agency_id = none → render_informed_entity ie = "")
    ∧ (∀ (eid : String) (a : Alert),
        List.lookup "Informed Entities" (process_alert eid a)
          = some (Value.s (String.intercalate "; "
              (a.informed_entity.map render_informed_entity))))
    ∧ List.lookup "Informed Entities" (process_alert "a1" c10_alert)
        = some (Value.s "route_id=R1; ") := by
  refine ⟨?_, fun eid a => rfl, rfl⟩
  intro ie h1 h2 h3
  unfold render_informed_entity
  rw [h1, h2, h3]
  rfl

/-- Claim C10, witnessed at the informed entity with no populated
sub-field. -/
theorem C10_empty_informed_entity_segment_witness :
    render_informed_entity { route_id := none, stop_id := none, agency_id := none } = "" :=
  C10_empty_informed_entity_segment.1
    { route_id := none, stop_id := none, agency_id := none } rfl rfl rfl

theorem charListLe_total : ∀ as bs : List Char,
    charListLe as bs = true ∨ charListLe bs as = true
  | [], _ => Or.inl rfl
  | _ :: _, [] => Or.inr rfl
  | a :: as, b :: bs => by
    rcases lt_trichotomy a b with h | h | h
    · left
      simp [charListLe, h]
    · subst h
      rcases charListLe_total as bs with ih | ih
      · left
        simp [charListLe, lt_irrefl, ih]
      · right
        simp [charListLe, lt_irrefl, ih]
    · right
      simp [charListLe, h]

theorem charListLe_trans : ∀ as bs cs : List Char, charListLe as bs = true →
    charListLe bs cs = true → charListLe as cs = true
  | [], _, _, _, _ => rfl
  | _ :: _, [], _, h1, _ => by simp [charListLe] at h1
  | _ :: _, _ :: _, [], _, h2 => by simp [charListLe] at h2
  | a :: as, b :: bs, c :: cs, h1, h2 => by
    simp only [charListLe] at h1 h2 ⊢
    rcases lt_trichotomy a b with hab | hab | hab
    · rcases lt_trichotomy b c with hbc | hbc | hbc
      · rw [if_pos (lt_trans hab hbc)]
      · subst hbc
        rw [if_pos hab]
      · rw [if_neg (asymm hbc), if_pos hbc] at h2
        exact absurd h2 (by simp)
    · subst hab
      rw [if_neg (lt_irrefl a), if_neg (lt_irrefl a)] at h1
      rcases lt_trichotomy a c with hac | hac | hac
      · rw [if_pos hac]
      · subst hac
        rw [if_neg (lt_irrefl a), if_neg (lt_irrefl a)] at h2
        rw [if_neg (lt_irrefl a), if_neg (lt_irrefl a)]
        exact charListLe_trans as bs cs h1 h2
      · rw [if_neg (asymm hac), if_pos hac] at h2
        exact absurd h2 (by simp)
    · rw [if_neg (asymm hab), if_pos hab] at h1
      exact absurd h1 (by simp)

theorem charListLe_antisymm : ∀ as bs : List Char, charListLe as bs = true →
    charListLe bs as = true → as = bs
  | [], [], _, _ => rfl
  | [], _ :: _, _, h2 => by simp [charListLe] at h2
  | _ :: _, [], h1, _ => by simp [charListLe] at h1
  | a :: as, b :: bs, h1, h2 => by
    simp only [charListLe] at h1 h2
    rcases lt_trichotomy a b with hab | hab | hab
    · rw [if_neg (asymm hab), if_pos hab] at h2
      exact absurd h2 (by simp)
    · subst hab
      rw [if_neg (lt_irrefl a), if_neg (lt_irrefl a)] at h1 h2
      rw [charListLe_antisymm as bs h1 h2]
    · rw [if_neg (asymm hab), if_pos hab] at h1
      exact absurd h1 (by simp)

theorem strLe_antisymm (s t : String) (h1 : strLe s t = true)
    (h2 : strLe t s = true) : s = t := by
  cases s with
  | mk ds =>
    cases t with
    | mk dt =>
      exact congrArg String.mk (charListLe_antisymm ds dt h1 h2)

instance : IsTotal FlatRecord recordLe :=
  ⟨fun r1 r2 => charListLe_total (entityIDof r1).data (entityIDof r2).data⟩

instance : IsTrans FlatRecord recordLe :=
  ⟨fun _ _ _ h1 h2 => charListLe_trans _ _ _ h1 h2⟩

theorem sorted_eq_of_perm_nodup : ∀ l1 l2 : List FlatRecord, l1.Perm l2 →
    (l1.map entityIDof).Nodup → l1.Pairwise recordLe → l2.Pairwise recordLe → l1 = l2
  | [], l2, hp, _, _, _ => hp.nil_eq
  | a :: t1, l2, hp, hnd, hs1, hs2 => by
    cases l2 with
    | nil =>
      have := hp.length_eq
      simp at this
    | cons b t2 =>
      have hab : a = b := by
        have hbmem : b ∈ a :: t1 := hp.mem_iff.mpr (List.mem_cons_self b t2)
        rcases List.mem_cons.mp hbmem with hba | hbt1
        · exact hba.symm
        · have hamem : a ∈ b :: t2 := hp.mem_iff.mp (List.mem_cons_self a t1)
          rcases List.mem_cons.mp hamem with hab2 | hat2
          · exact hab2
          · have hle1 : recordLe a b := (List.pairwise_cons.mp hs1).1 b hbt1
            have hle2 : recordLe b a := (List.pairwise_cons.mp hs2).1 a hat2
            have hid : entityIDof a = entityIDof b := strLe_antisymm _ _ hle1 hle2
            have hnotin := (List.nodup_cons.mp hnd).1
            rw [hid] at hnotin
            exact absurd (List.mem_map_of_mem entityIDof hbt1) hnotin
      subst hab
      have htail := sorted_eq_of_perm_nodup t1 t2 hp.cons_inv
        (List.nodup_cons.mp hnd).2 (List.pairwise_cons.mp hs1).2
        (List.pairwise_cons.mp hs2).2
      rw [htail]

/-- Claim C3: under the data model's invariant that entity identifiers are
unique within a feed, the output has exactly one record per
successfully classified entity (it is a permutation of the classified
records and its length counts them), is sorted ascending on the
"Entity ID" column under case-sensitive code-point string comparison,
and is the unique such arrangement — so it coincides with the stable
sort, tie order being vacuous under distinct keys. -/
theorem C3_output_sorted_by_entity_id (feed : FeedMessage)
    (hn : (feed.entity.map FeedEntity.id).Nodup) :
    (parse_gtfs_realtime feed).Perm (feed.entity.filterMap processEntity)
    ∧ (parse_gtfs_realtime feed).Pairwise recordLe
    ∧ (parse_gtfs_realtime feed).length
        = feed.entity.countP (fun e => (processEntity e).isSome)
    ∧ (∀ l2 : List FlatRecord, l2.Perm (feed.entity.filterMap processEntity) →
        l2.Pairwise recordLe → l2 = parse_gtfs_realtime feed) := by
  have hperm : (parse_gtfs_realtime feed).Perm (feed.entity.filterMap processEntity) :=
    List.perm_insertionSort recordLe (feed.entity.filterMap processEntity)
  have hsorted : (parse_gtfs_realtime feed).Pairwise recordLe :=
    List.sorted_insertionSort recordLe (feed.entity.filterMap processEntity)
  have hnd : ((feed.entity.filterMap processEntity).map entityIDof).Nodup :=
    List.Nodup.sublist (records_ids_sublist feed.entity) hn
  refine ⟨hperm, hsorted, ?_, ?_⟩
  · rw [hperm.length_eq, List.length_filterMap_eq_countP]
  · intro l2 hl2 hsl2
    have hndl2 : (l2.map entityIDof).Nodup := ((hl2.map entityIDof).nodup_iff).mpr hnd
    exact sorted_eq_of_perm_nodup l2 (parse_gtfs_realtime feed)
      (hl2.trans hperm.symm) hndl2 hsl2 hsorted

/-- A feed with two alert entities whose identifiers arrive in
descending order. -/
def c3_feed : FeedMessage :=
  { header := { version := "2.0", timestamp := none },
    entity :=
      [{ id := "b", trip_update := none, vehicle := none, alert := some c2_empty_alert },
       { id := "a", trip_update := none, vehicle := none, alert := some c10_alert }] }

/-- Claim C3, witnessed on a concrete two-entity feed with distinct
identifiers. -/
theorem C3_output_sorted_by_entity_id_witness :
    (parse_gtfs_realtime c3_feed).Perm (c3_feed.entity.filterMap processEntity)
    ∧ (parse_gtfs_realtime c3_feed).Pairwise recordLe :=
  ⟨(C3_output_sorted_by_entity_id c3_feed (by decide)).1,
   (C3_output_sorted_by_entity_id c3_feed (by decide)).2.1⟩
